import Mathlib

/-!
Shallow embedding of `fw/platforms/esp32/src/esp32_wifi.c` (mongoose-os ESP32
WiFi driver): the mode coordinator, the station lifecycle event handler and the
scan request multiplexer.

External ESP-IDF / lwIP primitives (`esp_wifi_*`, `tcpip_adapter_*`,
`dhcps_*`) are opaque collaborators: each call's outcome is an input to the
embedded function, drawn from the status codes the source inspects
(`ESP_OK`, `ESP_ERR_WIFI_NOT_INIT`, `ESP_ERR_WIFI_NOT_STARTED`,
`ESP_ERR_TCPIP_ADAPTER_IF_NOT_READY`, anything else).  Scan callbacks
(`mgos_wifi_scan_cb_t` plus its `void *arg`) are identified by an opaque
natural number; a callback invocation performed through the deferred
`mgos_invoke_cb` path is recorded as a `Delivery`.  The recursive mutex only
serializes the C code; the serialized behaviour itself is what is embedded.
-/

namespace Esp32Wifi

/-- Status codes of the external radio primitives, as the source
distinguishes them: `ESP_OK`, `ESP_ERR_WIFI_NOT_INIT`,
`ESP_ERR_WIFI_NOT_STARTED`, `ESP_ERR_TCPIP_ADAPTER_IF_NOT_READY`, and any
other vendor error code. -/
inductive EspErr where
  | ok
  | notInit
  | notStarted
  | ifNotReady
  | other (code : Nat)
deriving DecidableEq, Repr

/-- Embedding of `wifi_mode_t`: WIFI_MODE_NULL / WIFI_MODE_STA / WIFI_MODE_AP /
WIFI_MODE_APSTA. -/
inductive WifiMode where
  | null
  | sta
  | ap
  | apsta
deriving DecidableEq, Repr

/-- Values of the `s_sta_state` string ("connecting", "idle", "associated",
"got ip"); the C `NULL` is `Option.none` in the state record. -/
inductive StaState where
  | connecting
  | idle
  | associated
  | gotIp
deriving DecidableEq, Repr

/-- Embedding of the `enum mgos_wifi_status` values dispatched through
`invoke_wifi_on_change_cb`. -/
inductive MgosWifiStatus where
  | disconnected
  | connected
  | ipAcquired
deriving DecidableEq, Repr

/-- Environment of one `wifi_ensure_init_and_start` run: `f1`, `f2`, `f3` are
the outcomes of the first, second and third invocation of the wrapped
`wifi_func_t` (at most three happen); `initR` is the outcome of
`esp_wifi_init`, `startR` of `esp_wifi_start`, should they be reached. -/
structure EnsureEnv where
  f1 : EspErr
  f2 : EspErr
  f3 : EspErr
  initR : EspErr
  startR : EspErr
deriving DecidableEq, Repr

/-- Observable outcome of `wifi_ensure_init_and_start`: the returned code,
how many times the wrapped function was invoked, and whether `esp_wifi_init`
resp. `esp_wifi_start` were invoked. -/
structure EnsureOut where
  r : EspErr
  nCalls : Nat
  initCalled : Bool
  startCalled : Bool
deriving DecidableEq, Repr

/-- Embedding of `wifi_ensure_init_and_start` (esp32_wifi.c lines 141-165): call the
wrapped function; on `ESP_ERR_WIFI_NOT_INIT` run `esp_wifi_init` with default
config and retry; if the current result is `ESP_ERR_WIFI_NOT_STARTED` run
`esp_wifi_start` and retry; a failure of `esp_wifi_init` or `esp_wifi_start`
and any other result go to `out` unchanged. -/
def wifi_ensure_init_and_start (e : EnsureEnv) : EnsureOut :=
  if e.f1 = .ok then ⟨.ok, 1, false, false⟩
  else if e.f1 = .notInit then
    if e.initR ≠ .ok then ⟨e.initR, 1, true, false⟩
    else if e.f2 = .ok then ⟨.ok, 2, true, false⟩
    else if e.f2 = .notStarted then
      if e.startR ≠ .ok then ⟨e.startR, 2, true, true⟩
      else ⟨e.f3, 3, true, true⟩
    else ⟨e.f2, 2, true, false⟩
  else if e.f1 = .notStarted then
    if e.startR ≠ .ok then ⟨e.startR, 1, false, true⟩
    else ⟨e.f2, 2, false, true⟩
  else ⟨e.f1, 1, false, false⟩

/-- Outcome of the i-th invocation (0-based) of the wrapped function in an
`EnsureEnv`. -/
def EnsureEnv.call (e : EnsureEnv) : Nat → EspErr
  | 0 => e.f1
  | 1 => e.f2
  | _ => e.f3

/-- Environment of one `mgos_wifi_set_mode` run: `stopR` is the outcome of
`esp_wifi_stop` (target NULL branch), `ens` feeds
`wifi_ensure_init_and_start` wrapping `esp_wifi_set_mode` (other targets). -/
structure SetModeEnv where
  stopR : EspErr
  ens : EnsureEnv
deriving DecidableEq, Repr

/-- Embedding of `mgos_wifi_set_mode` (lines 167-209), acting on `s_cur_mode`: for
`WIFI_MODE_NULL` call `esp_wifi_stop`, treating `ESP_ERR_WIFI_NOT_INIT` as
success ("nothing to stop"), and on success store NULL; otherwise run
`esp_wifi_set_mode` through `wifi_ensure_init_and_start` and store the new
mode only on success.  Returns the esp error and the resulting
`s_cur_mode`. -/
def mgos_wifi_set_mode (mode cur : WifiMode) (env : SetModeEnv) :
    EspErr × WifiMode :=
  if mode = .null then
    let r := if env.stopR = .notInit then .ok else env.stopR
    if r = .ok then (.ok, .null) else (r, cur)
  else
    let eo := wifi_ensure_init_and_start env.ens
    if eo.r = .ok then (.ok, mode) else (eo.r, cur)

/-- Embedding of `mgos_wifi_add_mode` (lines 211-230): no-op when the mode is already
present (`s_cur_mode == mode` or APSTA); escalate to APSTA when the opposite
single mode is active; otherwise set the requested mode. -/
def mgos_wifi_add_mode (mode cur : WifiMode) (env : SetModeEnv) :
    EspErr × WifiMode :=
  if cur = mode ∨ cur = .apsta then (.ok, cur)
  else
    let mode' := if (cur = .ap ∧ mode = .sta) ∨ (cur = .sta ∧ mode = .ap)
      then WifiMode.apsta else mode
    mgos_wifi_set_mode mode' cur env

/-- Embedding of `mgos_wifi_remove_mode` (lines 232-257): nothing to do when removing STA
while in AP mode or AP while in STA mode; removing APSTA, or the mode equal
to the current one, targets NULL; otherwise removing STA targets AP and
anything else targets STA; the target is applied via
`mgos_wifi_set_mode`. -/
def mgos_wifi_remove_mode (mode cur : WifiMode) (env : SetModeEnv) :
    EspErr × WifiMode :=
  if (mode = .sta ∧ cur = .ap) ∨ (mode = .ap ∧ cur = .sta) then (.ok, cur)
  else
    let mode' :=
      if mode = .apsta ∨ (mode = .sta ∧ cur = .sta) ∨ (mode = .ap ∧ cur = .ap)
      then WifiMode.null
      else if mode = .sta then WifiMode.ap
      else WifiMode.sta
    mgos_wifi_set_mode mode' cur env

/-- Ensure-environment in which every external radio call succeeds. -/
def ensAllOk : EnsureEnv :=
  ⟨.ok, .ok, .ok, .ok, .ok⟩

/-- Environment in which every external radio call succeeds. -/
def envAllOk : SetModeEnv :=
  ⟨.ok, ensAllOk⟩

/-- One `wifi_ap_record_t` as the source reads it: ssid bytes, bssid bytes,
`authmode`, `primary` channel, `rssi`. -/
structure ApRec where
  ssid : String
  bssid : List Nat
  authmode : Nat
  primary : Nat
  rssi : Int
deriving DecidableEq, Repr

/-- One `struct mgos_wifi_scan_result` as filled by `scan_cb_cb`. -/
structure ScanResult where
  ssid : String
  bssid : List Nat
  auth_mode : Nat
  channel : Nat
  rssi : Int
deriving DecidableEq, Repr

/-- Per-record translation performed by `scan_cb_cb` (lines 540-548):
`strncpy` of the ssid into a 33-byte field with forced NUL at index 32
(hence at most 32 characters survive), bssid copied, authmode / primary
channel / rssi copied. -/
def ap_to_result (ap : ApRec) : ScanResult :=
  { ssid := ap.ssid.take 32
    bssid := ap.bssid
    auth_mode := ap.authmode
    channel := ap.primary
    rssi := ap.rssi }

/-- One callback invocation performed by `scan_cb_cb` on behalf of a waiter:
the waiter's identity (its `cb`/`arg` pair), the `num_aps` count passed, and
the translated result list (empty when `num_aps < 0`, where the C passes
`res == NULL`). -/
structure Delivery where
  w : Nat
  count : Int
  res : List ScanResult
deriving DecidableEq, Repr

/-- The driver's mutable state: `s_sta_state`, `s_sta_should_connect`,
`s_cur_mode`, `s_scan_in_progress` and the `s_scan_cbs` waiter list
(`SLIST_INSERT_HEAD` prepends, so the list head is the most recent
waiter). -/
structure WifiState where
  sta_state : Option StaState
  sta_should_connect : Bool
  cur_mode : WifiMode
  scan_in_progress : Bool
  scan_cbs : List Nat
deriving DecidableEq, Repr

/-- The `system_event_t` inputs `esp32_wifi_ev` dispatches on.  A
`scanDone` event carries the reported status, the records
`esp_wifi_scan_get_ap_records` would fill, and whether that call returns
`ESP_OK`. -/
inductive SysEvent where
  | staStart
  | staStop
  | staDisconnected
  | staConnected
  | staGotIp
  | scanDone (status : Nat) (aps : List ApRec) (getOk : Bool)
  | otherEvent
deriving DecidableEq, Repr

/-- Embedding of `esp32_wifi_ev` (lines 53-137).  Output: the new state, whether
`esp_wifi_connect` was invoked, the scan-callback deliveries handed to
`invoke_scan_callbacks` (fanned out by the deferred `scan_cb_cb`), and the
status notification posted through `invoke_wifi_on_change_cb` (the `mg_ev`
value), if any. -/
def esp32_wifi_ev (e : SysEvent) (st : WifiState) :
    WifiState × Bool × List Delivery × Option MgosWifiStatus :=
  match e with
  | .staStart =>
    ({ st with sta_state := some .connecting }, false, [], none)
  | .staStop =>
    let st1 := { st with sta_state := none }
    if st1.scan_in_progress then
      ({ st1 with scan_in_progress := false, scan_cbs := [] }, false,
        st1.scan_cbs.map (fun w => ⟨w, -1, []⟩), none)
    else (st1, false, [], none)
  | .staDisconnected =>
    if st.sta_should_connect then
      ({ st with sta_state := some .connecting }, true, [],
        some .disconnected)
    else
      ({ st with sta_state := some .idle }, false, [], some .disconnected)
  | .staConnected =>
    ({ st with sta_state := some .associated }, false, [], some .connected)
  | .staGotIp =>
    ({ st with sta_state := some .gotIp }, false, [], some .ipAcquired)
  | .scanDone status aps getOk =>
    let num : Int := if status = 0 ∧ getOk then (aps.length : Int) else -1
    let res := if (0 : Int) ≤ num then aps.map ap_to_result else []
    ({ st with scan_in_progress := false, scan_cbs := [] }, false,
      st.scan_cbs.map (fun w => ⟨w, num, res⟩), none)
  | .otherEvent => (st, false, [], none)

/-- Environment of one `mgos_wifi_scan` run: `addEnv` feeds the
`mgos_wifi_add_mode(WIFI_MODE_STA)` call, `startR` is the outcome of the
`esp_wifi_start` that follows it, and `scanStartR` the outcome of
`esp_wifi_scan_start`. -/
structure ScanEnv where
  addEnv : SetModeEnv
  startR : EspErr
  scanStartR : EspErr
deriving DecidableEq, Repr

/-- Value of `r` after the mode block of `mgos_wifi_scan` (lines 580-583)
together with the resulting `s_cur_mode`: when the current mode is neither
STA nor APSTA, add the STA mode and, on success, start the radio; otherwise
`r` stays `ESP_OK`. -/
def scan_prep (st : WifiState) (env : ScanEnv) : EspErr × WifiMode :=
  if st.cur_mode ≠ .sta ∧ st.cur_mode ≠ .apsta then
    let p := mgos_wifi_add_mode .sta st.cur_mode env.addEnv
    if p.1 = .ok then (env.startR, p.2) else p
  else (.ok, st.cur_mode)

/-- Embedding of `mgos_wifi_scan` (lines 571-606) for waiter `w`.  Output: the new
state, the deliveries handed to `invoke_scan_callbacks` (the immediate
failure fan-out of this single waiter, if any), and whether
`esp_wifi_scan_start` was invoked.  If a scan is already in progress the
waiter is only prepended to `s_scan_cbs`; otherwise the scan is prepared
and started, the in-progress flag is set only when `esp_wifi_scan_start`
returns `ESP_OK`, and on any failure the waiter alone receives an immediate
`(-1, NULL)` result and is not enqueued. -/
def mgos_wifi_scan (w : Nat) (env : ScanEnv) (st : WifiState) :
    WifiState × List Delivery × Bool :=
  if st.scan_in_progress then
    ({ st with scan_cbs := w :: st.scan_cbs }, [], false)
  else
    let p := scan_prep st env
    let st1 := { st with cur_mode := p.2 }
    if p.1 = .ok then
      if env.scanStartR = .ok then
        ({ st1 with scan_in_progress := true, scan_cbs := w :: st1.scan_cbs },
          [], true)
      else (st1, [⟨w, -1, []⟩], true)
    else (st1, [⟨w, -1, []⟩], false)

/-- Embedding of `mgos_wifi_disconnect` (lines 437-443): clear `s_sta_should_connect`,
invoke `esp_wifi_disconnect` (whose outcome `discR` is never inspected) and
return true.  Output: the returned boolean and the new state. -/
def mgos_wifi_disconnect (discR : EspErr) (st : WifiState) :
    Bool × WifiState :=
  let _ := discR
  (true, { st with sta_should_connect := false })

/-- Embedding of `struct sys_config_wifi_sta`, restricted to the fields that steer the
control flow of `mgos_wifi_setup_sta` (the ssid/password payload is only
marshalled into the external `esp_wifi_set_config` call). -/
structure StaCfg where
  enable : Bool
  ssid : String
  pass : Option String
  ip : Option String
  netmask : Option String
  gw : Option String
  dhcp_hostname : Option String
deriving DecidableEq, Repr

/-- Embedding of `struct sys_config_wifi_ap`, restricted to the fields that steer
control flow (the ssid/password/channel payload only feeds external
calls). -/
structure ApCfg where
  enable : Bool
  keep_enabled : Bool
deriving DecidableEq, Repr

/-- Embedding of `struct sys_config_wifi`. -/
structure WifiCfg where
  sta : StaCfg
  ap : ApCfg
deriving DecidableEq, Repr

/-- Environment of one `mgos_wifi_setup_sta` run: the validation verdict of
`mgos_wifi_validate_sta_cfg`, the `SetModeEnv`s of the remove-mode
(disabled branch) and add-mode calls, the outcomes of
`tcpip_adapter_set_ip_info`, `esp_wifi_set_config`,
`tcpip_adapter_set_hostname`, and the `EnsureEnv` of the
`wifi_ensure_init_and_start(esp_wifi_connect)` call. -/
structure StaSetupEnv where
  validateOk : Bool
  rmEnv : SetModeEnv
  addEnv : SetModeEnv
  ipR : EspErr
  cfgR : EspErr
  hostR : EspErr
  connEns : EnsureEnv
deriving DecidableEq, Repr

/-- Embedding of `wifi_sta_set_host_name` (lines 259-267): pick `cfg->dhcp_hostname`,
falling back to `get_cfg()->device.id`; when a host name exists invoke
`tcpip_adapter_set_hostname` (outcome `env.hostR`), else return `ESP_OK`. -/
def wifi_sta_set_host_name (cfg : StaCfg) (deviceId : Option String)
    (hostR : EspErr) : EspErr :=
  let host_name := match cfg.dhcp_hostname with
    | some h => some h
    | none => deviceId
  if host_name ≠ none then hostR else .ok

/-- Embedding of `mgos_wifi_setup_sta` (lines 269-344).  Output: the returned boolean
and the new state.  Invalid config fails with no state change; a disabled
config clears `s_sta_should_connect` and removes the STA mode; an enabled
config adds the STA mode, applies static IP config when both ip and netmask
are given (`tcpip_adapter_set_ip_info` outcome checked), sets the station
config, sets `s_sta_should_connect` (before host name and connect), treats
a `ESP_ERR_TCPIP_ADAPTER_IF_NOT_READY` host-name outcome as non-fatal, and
finally connects through `wifi_ensure_init_and_start`. -/
def mgos_wifi_setup_sta (cfg : StaCfg) (deviceId : Option String)
    (env : StaSetupEnv) (st : WifiState) : Bool × WifiState :=
  if ¬env.validateOk then (false, st)
  else if ¬cfg.enable then
    let st1 := { st with sta_should_connect := false }
    let p := mgos_wifi_remove_mode .sta st1.cur_mode env.rmEnv
    (p.1 = .ok, { st1 with cur_mode := p.2 })
  else
    let p := mgos_wifi_add_mode .sta st.cur_mode env.addEnv
    let st1 := { st with cur_mode := p.2 }
    if p.1 ≠ .ok then (false, st1)
    else if cfg.ip ≠ none ∧ cfg.netmask ≠ none ∧ env.ipR ≠ .ok then
      (false, st1)
    else if env.cfgR ≠ .ok then (false, st1)
    else
      let st2 := { st1 with sta_should_connect := true }
      let host_r := wifi_sta_set_host_name cfg deviceId env.hostR
      if host_r ≠ .ok ∧ host_r ≠ .ifNotReady then (false, st2)
      else if (wifi_ensure_init_and_start env.connEns).r ≠ .ok then
        (false, st2)
      else (true, st2)

/-- Environment of one `mgos_wifi_setup_ap` run: validation verdict,
`SetModeEnv`s of the remove/add mode calls, and the outcomes of
`esp_wifi_set_config`, `tcpip_adapter_set_ip_info`,
`tcpip_adapter_dhcps_option` and `tcpip_adapter_dhcps_start` (the final
`esp_wifi_start` is invoked unchecked). -/
structure ApSetupEnv where
  validateOk : Bool
  rmEnv : SetModeEnv
  addEnv : SetModeEnv
  cfgR : EspErr
  ipR : EspErr
  dhcpOptR : EspErr
  dhcpStartR : EspErr
deriving DecidableEq, Repr

/-- Embedding of `mgos_wifi_setup_ap` (lines 346-435).  Output: the returned boolean and
the new state.  Invalid config fails; a disabled config removes the AP
mode; an enabled config adds the AP mode then applies AP config, IP info,
DHCP lease option and DHCP server start in order, failing at the first
non-`ESP_OK` outcome, and finally calls `esp_wifi_start` unchecked. -/
def mgos_wifi_setup_ap (cfg : ApCfg) (env : ApSetupEnv) (st : WifiState) :
    Bool × WifiState :=
  if ¬env.validateOk then (false, st)
  else if ¬cfg.enable then
    let p := mgos_wifi_remove_mode .ap st.cur_mode env.rmEnv
    (p.1 = .ok, { st with cur_mode := p.2 })
  else
    let p := mgos_wifi_add_mode .ap st.cur_mode env.addEnv
    let st1 := { st with cur_mode := p.2 }
    if p.1 ≠ .ok then (false, st1)
    else if env.cfgR ≠ .ok then (false, st1)
    else if env.ipR ≠ .ok then (false, st1)
    else if env.dhcpOptR ≠ .ok then (false, st1)
    else if env.dhcpStartR ≠ .ok then (false, st1)
    else (true, st1)

/-- Top-level calls issued by `mgos_wifi_set_config`, in order. -/
inductive CfgAction where
  | setupAp
  | setupSta
  | setMode (m : WifiMode)
deriving DecidableEq, Repr

/-- Environment of one `mgos_wifi_set_config` run. -/
structure SetCfgEnv where
  modeEnv : SetModeEnv
  apEnv : ApSetupEnv
  staEnv : StaSetupEnv
  deviceId : Option String
deriving DecidableEq, Repr

/-- Embedding of `mgos_wifi_set_config` (lines 481-496).  Output: the returned boolean,
the new state, and the ordered list of top-level calls issued (the `&&`
chain of the both-enabled branch short-circuits).  Branches: AP enabled and
STA disabled runs AP setup; both enabled with `keep_enabled` sets APSTA
then runs AP setup then STA setup; STA enabled (with AP disabled, or both
enabled without `keep_enabled`) runs STA setup; otherwise sets mode
NULL. -/
def mgos_wifi_set_config (cfg : WifiCfg) (env : SetCfgEnv) (st : WifiState) :
    Bool × WifiState × List CfgAction :=
  if cfg.ap.enable ∧ ¬cfg.sta.enable then
    let p := mgos_wifi_setup_ap cfg.ap env.apEnv st
    (p.1, p.2, [.setupAp])
  else if cfg.ap.enable ∧ cfg.sta.enable ∧ cfg.ap.keep_enabled then
    let q := mgos_wifi_set_mode .apsta st.cur_mode env.modeEnv
    let st1 := { st with cur_mode := q.2 }
    if q.1 ≠ .ok then (false, st1, [.setMode .apsta])
    else
      let a := mgos_wifi_setup_ap cfg.ap env.apEnv st1
      if ¬a.1 then (false, a.2, [.setMode .apsta, .setupAp])
      else
        let s := mgos_wifi_setup_sta cfg.sta env.deviceId env.staEnv a.2
        (s.1, s.2, [.setMode .apsta, .setupAp, .setupSta])
  else if cfg.sta.enable then
    let p := mgos_wifi_setup_sta cfg.sta env.deviceId env.staEnv st
    (p.1, p.2, [.setupSta])
  else
    let q := mgos_wifi_set_mode .null st.cur_mode env.modeEnv
    (q.1 = .ok, { st with cur_mode := q.2 }, [.setMode .null])

/-- A command of the serialized driver history examined by the scan
multiplexer claims: either a `mgos_wifi_scan` request by waiter `w` under a
given environment, or an incoming `esp32_wifi_ev` event. -/
inductive Cmd where
  | scan (w : Nat) (env : ScanEnv)
  | ev (e : SysEvent)
deriving DecidableEq, Repr

/-- What one command did: the in-progress flag and waiter queue before it,
the waiter queue after it, whether it invoked `esp_wifi_scan_start`, and the
deliveries it produced. -/
structure StepLog where
  preInFlight : Bool
  preQueue : List Nat
  postQueue : List Nat
  scanStartCalled : Bool
  deliveries : List Delivery
deriving DecidableEq, Repr

/-- Execute one command against the state, producing the new state and the
log of what happened. -/
def step (st : WifiState) : Cmd → WifiState × StepLog
  | .scan w env =>
    let o := mgos_wifi_scan w env st
    (o.1, ⟨st.scan_in_progress, st.scan_cbs, o.1.scan_cbs, o.2.2, o.2.1⟩)
  | .ev e =>
    let o := esp32_wifi_ev e st
    (o.1, ⟨st.scan_in_progress, st.scan_cbs, o.1.scan_cbs, false, o.2.2.1⟩)

/-- Run a command sequence, collecting the per-command logs. -/
def run : WifiState → List Cmd → WifiState × List (Cmd × StepLog)
  | st, [] => (st, [])
  | st, c :: cs =>
    ((run (step st c).1 cs).1, (c, (step st c).2) :: (run (step st c).1 cs).2)

/-- Scan environment in which every radio call succeeds. -/
def scanEnvOk : ScanEnv := ⟨envAllOk, .ok, .ok⟩

/-- Station-setup environment in which every external call succeeds. -/
def staEnvOk : StaSetupEnv :=
  ⟨true, envAllOk, envAllOk, .ok, .ok, .ok, ensAllOk⟩

/-- AP-setup environment in which every external call succeeds. -/
def apEnvOk : ApSetupEnv :=
  ⟨true, envAllOk, envAllOk, .ok, .ok, .ok, .ok⟩

/-- Combined-config environment in which every external call succeeds. -/
def cfgEnvOk : SetCfgEnv := ⟨envAllOk, apEnvOk, staEnvOk, none⟩

/-- Initial driver state: no station state, no reconnect flag, mode NULL,
no scan in flight, no waiters. -/
def st0 : WifiState := ⟨none, false, .null, false, []⟩

/-- Driver state in STA mode with no scan in flight. -/
def stSta : WifiState := ⟨none, false, .sta, false, []⟩

/-- Driver state with a scan in flight and two pending waiters. -/
def stScan2 : WifiState := ⟨some .connecting, true, .sta, true, [1, 2]⟩

/-- Enabled station config using DHCP, without a host-name override. -/
def staCfgDhcp : StaCfg := ⟨true, "net1", some "secret1", none, none, none, none⟩

/-- Enabled station config with a host-name override. -/
def staCfgHost : StaCfg :=
  ⟨true, "net1", some "secret1", none, none, none, some "myhost"⟩

/-- Station-setup environment succeeding everywhere except at the
host-name step, which fails with a fatal (non-`ifNotReady`) error. -/
def staEnvHostFail : StaSetupEnv :=
  ⟨true, envAllOk, envAllOk, .ok, .ok, .other 7, ensAllOk⟩

/-- Combined config with both the AP and the station enabled and
`keep_enabled` clear. -/
def cfgBothNoKeep : WifiCfg :=
  ⟨⟨true, "net1", none, none, none, none, none⟩, ⟨true, false⟩⟩

lemma exists_call_lt_one (e : EnsureEnv) :
    (∃ i, i < 1 ∧ e.call i = .ok) ↔ e.f1 = .ok := by
  constructor
  · rintro ⟨i, hi, h⟩
    interval_cases i
    exact h
  · intro h
    exact ⟨0, Nat.zero_lt_one, h⟩

lemma exists_call_lt_two (e : EnsureEnv) :
    (∃ i, i < 2 ∧ e.call i = .ok) ↔ e.f1 = .ok ∨ e.f2 = .ok := by
  constructor
  · rintro ⟨i, hi, h⟩
    interval_cases i
    · exact Or.inl h
    · exact Or.inr h
  · rintro (h | h)
    · exact ⟨0, by omega, h⟩
    · exact ⟨1, by omega, h⟩

lemma exists_call_lt_three (e : EnsureEnv) :
    (∃ i, i < 3 ∧ e.call i = .ok) ↔
      e.f1 = .ok ∨ e.f2 = .ok ∨ e.f3 = .ok := by
  constructor
  · rintro ⟨i, hi, h⟩
    interval_cases i
    · exact Or.inl h
    · exact Or.inr (Or.inl h)
    · exact Or.inr (Or.inr h)
  · rintro (h | h | h)
    · exact ⟨0, by omega, h⟩
    · exact ⟨1, by omega, h⟩
    · exact ⟨2, by omega, h⟩

lemma set_mode_spec (mode cur : WifiMode) (env : SetModeEnv) :
    ((mgos_wifi_set_mode mode cur env).1 = .ok →
      (mgos_wifi_set_mode mode cur env).2 = mode) ∧
    ((mgos_wifi_set_mode mode cur env).1 ≠ .ok →
      (mgos_wifi_set_mode mode cur env).2 = cur) := by
  by_cases hm : mode = .null
  · subst hm
    by_cases hs : env.stopR = .notInit
    · simp [mgos_wifi_set_mode, hs]
    · by_cases ho : env.stopR = .ok
      · simp [mgos_wifi_set_mode, hs, ho]
      · simp [mgos_wifi_set_mode, hs, ho]
  · by_cases he : (wifi_ensure_init_and_start env.ens).r = .ok
    · simp [mgos_wifi_set_mode, hm, he]
    · simp [mgos_wifi_set_mode, hm, he]

/-- C8: `wifi_ensure_init_and_start` performs at most one recovery retry per
failure class: `esp_wifi_init` is run exactly when the first wrapped call
fails with not-initialized; `esp_wifi_start` is run exactly when the
current result is not-started (directly, or after a successful init and a
second not-started failure); the wrapped operation is invoked at most three
times; the wrapper succeeds iff some invocation of the wrapped operation
succeeded; and any other first error is surfaced untouched with no
retry. -/
theorem ensure_retries_once_per_class (e : EnsureEnv) :
    ((wifi_ensure_init_and_start e).initCalled = true ↔ e.f1 = .notInit) ∧
    ((wifi_ensure_init_and_start e).startCalled = true ↔
      (e.f1 = .notStarted ∨
        (e.f1 = .notInit ∧ e.initR = .ok ∧ e.f2 = .notStarted))) ∧
    (wifi_ensure_init_and_start e).nCalls ≤ 3 ∧
    ((wifi_ensure_init_and_start e).r = .ok ↔
      ∃ i, i < (wifi_ensure_init_and_start e).nCalls ∧ e.call i = .ok) ∧
    (e.f1 ≠ .ok → e.f1 ≠ .notInit → e.f1 ≠ .notStarted →
      wifi_ensure_init_and_start e = ⟨e.f1, 1, false, false⟩) := by
  by_cases h1 : e.f1 = .ok
  · simp [wifi_ensure_init_and_start, h1, exists_call_lt_one, EnsureEnv.call]
  · by_cases h2 : e.f1 = .notInit
    · by_cases h3 : e.initR = .ok
      · by_cases h4 : e.f2 = .ok
        · simp [wifi_ensure_init_and_start, h1, h2, h3, h4,
            exists_call_lt_two]
        · by_cases h5 : e.f2 = .notStarted
          · by_cases h6 : e.startR = .ok
            · simp [wifi_ensure_init_and_start, h1, h2, h3, h4, h5, h6,
                exists_call_lt_three]
            · simp [wifi_ensure_init_and_start, h1, h2, h3, h4, h5, h6,
                exists_call_lt_two]
          · simp [wifi_ensure_init_and_start, h1, h2, h3, h4, h5,
              exists_call_lt_two]
      · simp [wifi_ensure_init_and_start, h1, h2, h3, exists_call_lt_one, EnsureEnv.call]
    · by_cases h7 : e.f1 = .notStarted
      · by_cases h8 : e.startR = .ok
        · simp [wifi_ensure_init_and_start, h1, h2, h7, h8,
            exists_call_lt_two]
        · simp [wifi_ensure_init_and_start, h1, h2, h7, h8,
            exists_call_lt_one, EnsureEnv.call]
      · simp [wifi_ensure_init_and_start, h1, h2, h7, exists_call_lt_one, EnsureEnv.call]

/-- Witness for `ensure_retries_once_per_class`: a first call failing with
an arbitrary vendor error is surfaced untouched with a single
invocation. -/
theorem ensure_retries_once_per_class_witness :
    wifi_ensure_init_and_start ⟨.other 5, .ok, .ok, .ok, .ok⟩ =
      ⟨.other 5, 1, false, false⟩ :=
  (ensure_retries_once_per_class ⟨.other 5, .ok, .ok, .ok, .ok⟩).2.2.2.2
    (by decide) (by decide) (by decide)

/-- C7: `mgos_wifi_set_mode` stores the requested mode exactly when the
underlying radio operations succeed; on failure the stored mode is left
unchanged and the requested mode is not applied; for target NULL a
not-initialized `esp_wifi_stop` outcome counts as success and the stored
mode becomes NULL. -/
theorem set_mode_updates_iff_success (mode cur : WifiMode)
    (env : SetModeEnv) :
    ((mgos_wifi_set_mode mode cur env).1 = .ok →
      (mgos_wifi_set_mode mode cur env).2 = mode) ∧
    ((mgos_wifi_set_mode mode cur env).1 ≠ .ok →
      (mgos_wifi_set_mode mode cur env).2 = cur ∧
      (mode ≠ cur → (mgos_wifi_set_mode mode cur env).2 ≠ mode)) ∧
    (mode = .null → env.stopR = .notInit →
      mgos_wifi_set_mode mode cur env = (.ok, .null)) := by
  refine ⟨(set_mode_spec mode cur env).1, fun h => ⟨(set_mode_spec mode cur env).2 h, ?_⟩, ?_⟩
  · intro hmc habs
    exact hmc (((set_mode_spec mode cur env).2 h ▸ habs).symm)
  · intro hm hs
    subst hm
    simp [mgos_wifi_set_mode, hs]

/-- Witness for `set_mode_updates_iff_success`: setting STA from NULL in an
all-success environment stores STA, and setting NULL when `esp_wifi_stop`
reports not-initialized succeeds and stores NULL. -/
theorem set_mode_updates_iff_success_witness :
    (mgos_wifi_set_mode .sta .null envAllOk).2 = .sta ∧
    mgos_wifi_set_mode .null .apsta ⟨.notInit, ensAllOk⟩ = (.ok, .null) :=
  ⟨(set_mode_updates_iff_success .sta .null envAllOk).1 (by decide),
   (set_mode_updates_iff_success .null .apsta ⟨.notInit, ensAllOk⟩).2.2
     rfl rfl⟩

/-- C9: `mgos_wifi_disconnect` always returns true, for every state and
every outcome of the underlying `esp_wifi_disconnect` primitive (whose
result is never inspected); it clears `s_sta_should_connect`. -/
theorem disconnect_always_succeeds (discR : EspErr) (st : WifiState) :
    (mgos_wifi_disconnect discR st).1 = true ∧
    (∀ r2 : EspErr,
      mgos_wifi_disconnect discR st = mgos_wifi_disconnect r2 st) ∧
    (mgos_wifi_disconnect discR st).2.sta_should_connect = false :=
  ⟨rfl, fun _ => rfl, rfl⟩

/-- C6: on a disconnected event, if `s_sta_should_connect` is set then
`esp_wifi_connect` is invoked and the station state becomes "connecting";
if it is clear, the station state becomes "idle" and no connect request is
issued. -/
theorem disconnected_event_reconnect_policy (st : WifiState) :
    (st.sta_should_connect = true →
      (esp32_wifi_ev .staDisconnected st).1.sta_state = some .connecting ∧
      (esp32_wifi_ev .staDisconnected st).2.1 = true) ∧
    (st.sta_should_connect = false →
      (esp32_wifi_ev .staDisconnected st).1.sta_state = some .idle ∧
      (esp32_wifi_ev .staDisconnected st).2.1 = false) := by
  by_cases h : st.sta_should_connect
  · simp [esp32_wifi_ev, h]
  · simp [esp32_wifi_ev, h]

/-- Witness for `disconnected_event_reconnect_policy`, at a state with the
reconnect flag set and at one with it clear. -/
theorem disconnected_event_reconnect_policy_witness :
    ((esp32_wifi_ev .staDisconnected stScan2).1.sta_state =
        some .connecting ∧
      (esp32_wifi_ev .staDisconnected stScan2).2.1 = true) ∧
    ((esp32_wifi_ev .staDisconnected st0).1.sta_state = some .idle ∧
      (esp32_wifi_ev .staDisconnected st0).2.1 = false) :=
  ⟨(disconnected_event_reconnect_policy stScan2).1 (by decide),
   (disconnected_event_reconnect_policy st0).2 (by decide)⟩

/-- C4: a station-stop event arriving while the scan-in-progress flag is
set delivers one failure callback with count -1 (and no result list) to
every pending waiter, empties the waiter queue, clears the in-progress
flag, and clears the station state. -/
theorem sta_stop_fails_all_waiters (st : WifiState)
    (h : st.scan_in_progress = true) :
    (esp32_wifi_ev .staStop st).1.scan_in_progress = false ∧
    (esp32_wifi_ev .staStop st).1.scan_cbs = [] ∧
    (esp32_wifi_ev .staStop st).1.sta_state = none ∧
    (esp32_wifi_ev .staStop st).2.2.1 =
      st.scan_cbs.map (fun w => ⟨w, -1, []⟩) ∧
    ∀ w ∈ st.scan_cbs,
      (⟨w, -1, []⟩ : Delivery) ∈ (esp32_wifi_ev .staStop st).2.2.1 := by
  refine ⟨by simp [esp32_wifi_ev, h], by simp [esp32_wifi_ev, h],
    by simp [esp32_wifi_ev, h], by simp [esp32_wifi_ev, h], ?_⟩
  intro w hw
  simp only [esp32_wifi_ev, h, if_true]
  exact List.mem_map.mpr ⟨w, hw, rfl⟩

/-- Witness for `sta_stop_fails_all_waiters`: a station-stop with two
pending waiters fails both with count -1 and clears everything. -/
theorem sta_stop_fails_all_waiters_witness :
    (esp32_wifi_ev .staStop stScan2).1.scan_in_progress = false ∧
    (esp32_wifi_ev .staStop stScan2).1.scan_cbs = [] ∧
    (esp32_wifi_ev .staStop stScan2).2.2.1 =
      [⟨1, -1, []⟩, ⟨2, -1, []⟩] := by
  have h := sta_stop_fails_all_waiters stScan2 (by decide)
  exact ⟨h.1, h.2.1, by decide⟩

/-- C5: when no scan is in flight and any step of starting a scan fails
(adding the STA mode, starting the radio, or `esp_wifi_scan_start`),
`mgos_wifi_scan` delivers an immediate failure with count -1 to this
request's waiter only, leaves the in-progress flag clear, and does not add
the waiter to the shared queue. -/
theorem scan_failure_immediate_fanout (w : Nat) (env : ScanEnv)
    (st : WifiState) (h : st.scan_in_progress = false)
    (hf : ¬((scan_prep st env).1 = .ok ∧ env.scanStartR = .ok)) :
    (mgos_wifi_scan w env st).2.1 = [⟨w, -1, []⟩] ∧
    (mgos_wifi_scan w env st).1.scan_in_progress = false ∧
    (mgos_wifi_scan w env st).1.scan_cbs = st.scan_cbs := by
  by_cases hp : (scan_prep st env).1 = .ok
  · by_cases hs : env.scanStartR = .ok
    · exact absurd ⟨hp, hs⟩ hf
    · simp [mgos_wifi_scan, h, hp, hs]
  · simp [mgos_wifi_scan, h, hp]

/-- Witness for `scan_failure_immediate_fanout`: a scan whose
`esp_wifi_scan_start` fails delivers (-1, no results) to the single
requesting waiter and enqueues nothing. -/
theorem scan_failure_immediate_fanout_witness :
    (mgos_wifi_scan 7 ⟨envAllOk, .ok, .other 3⟩ stSta).2.1 =
      [⟨7, -1, []⟩] ∧
    (mgos_wifi_scan 7 ⟨envAllOk, .ok, .other 3⟩ stSta).1.scan_in_progress =
      false ∧
    (mgos_wifi_scan 7 ⟨envAllOk, .ok, .other 3⟩ stSta).1.scan_cbs = [] :=
  scan_failure_immediate_fanout 7 ⟨envAllOk, .ok, .other 3⟩ stSta
    (by decide) (by decide)

/-- C10: when an enabled station setup passes validation, mode addition,
IP configuration and `esp_wifi_set_config`, but then fails at the
host-name step (with a fatal, non-`ifNotReady` error) or at the connect
step, the call returns false while `s_sta_should_connect` stays true (it
was set before those steps and is never reset on the failure path), so a
later disconnected event still issues a reconnect attempt. -/
theorem setup_sta_failure_keeps_reconnect (cfg : StaCfg)
    (deviceId : Option String) (env : StaSetupEnv) (st : WifiState)
    (hen : cfg.enable = true) (hv : env.validateOk = true)
    (hadd : (mgos_wifi_add_mode .sta st.cur_mode env.addEnv).1 = .ok)
    (hip : ¬(cfg.ip ≠ none ∧ cfg.netmask ≠ none ∧ env.ipR ≠ .ok))
    (hcfg : env.cfgR = .ok)
    (hfail :
      (wifi_sta_set_host_name cfg deviceId env.hostR ≠ .ok ∧
        wifi_sta_set_host_name cfg deviceId env.hostR ≠ .ifNotReady) ∨
      (¬(wifi_sta_set_host_name cfg deviceId env.hostR ≠ .ok ∧
          wifi_sta_set_host_name cfg deviceId env.hostR ≠ .ifNotReady) ∧
        (wifi_ensure_init_and_start env.connEns).r ≠ .ok)) :
    (mgos_wifi_setup_sta cfg deviceId env st).1 = false ∧
    (mgos_wifi_setup_sta cfg deviceId env st).2.sta_should_connect = true ∧
    (esp32_wifi_ev .staDisconnected
      (mgos_wifi_setup_sta cfg deviceId env st).2).2.1 = true := by
  have hsetup :
      mgos_wifi_setup_sta cfg deviceId env st =
        (false, { st with
          cur_mode := (mgos_wifi_add_mode .sta st.cur_mode env.addEnv).2,
          sta_should_connect := true }) := by
    rcases hfail with ⟨hh1, hh2⟩ | ⟨hh, hc⟩
    · simp [mgos_wifi_setup_sta, hen, hv, hadd, hip, hcfg, hh1, hh2]
    · simp [mgos_wifi_setup_sta, hen, hv, hadd, hip, hcfg, hh, hc]
  rw [hsetup]
  simp [esp32_wifi_ev]

/-- Witness for `setup_sta_failure_keeps_reconnect`: an enabled DHCP
station config whose host-name call fails fatally returns false with the
reconnect flag left set. -/
theorem setup_sta_failure_keeps_reconnect_witness :
    (mgos_wifi_setup_sta staCfgHost none staEnvHostFail st0).1 = false ∧
    (mgos_wifi_setup_sta staCfgHost none
      staEnvHostFail st0).2.sta_should_connect = true :=
  have h := setup_sta_failure_keeps_reconnect staCfgHost none
    staEnvHostFail st0 (by decide) (by decide) (by decide) (by decide)
    (by decide) (Or.inl (by decide))
  ⟨h.1, h.2.1⟩

lemma step_log_spec (s : WifiState) (c : Cmd) :
    ((step s c).2.scanStartCalled = true →
      (step s c).2.preInFlight = false) ∧
    (∀ w env, c = Cmd.scan w env → (step s c).2.preInFlight = true →
      (step s c).2.scanStartCalled = false ∧
      (step s c).2.deliveries = [] ∧
      (step s c).2.postQueue = w :: (step s c).2.preQueue) ∧
    (∀ status aps getOk, c = Cmd.ev (.scanDone status aps getOk) →
      (step s c).2.deliveries.map Delivery.w = (step s c).2.preQueue ∧
      ∀ d1 ∈ (step s c).2.deliveries, ∀ d2 ∈ (step s c).2.deliveries,
        d1.count = d2.count ∧ d1.res = d2.res) := by
  cases c with
  | scan w env =>
    by_cases hin : s.scan_in_progress
    · refine ⟨?_, ?_, ?_⟩
      · intro habs
        simp [step, mgos_wifi_scan, hin] at habs
      · rintro w' env' heq _
        injection heq with hw henv
        subst hw
        simp [step, mgos_wifi_scan, hin]
      · rintro status aps getOk ⟨⟩
    · refine ⟨fun _ => by simp [step, hin], ?_, ?_⟩
      · rintro w' env' heq hpre
        exact absurd (by simpa [step] using hpre) hin
      · rintro status aps getOk ⟨⟩
  | ev e =>
    refine ⟨?_, ?_, ?_⟩
    · intro habs
      simp [step] at habs
    · rintro w' env' ⟨⟩
    · rintro status aps getOk heq
      injection heq with he
      subst he
      constructor
      · simp [step, esp32_wifi_ev, List.map_map, Function.comp_def]
      · intro d1 hd1 d2 hd2
        simp only [step, esp32_wifi_ev] at hd1 hd2
        rcases List.mem_map.mp hd1 with ⟨w1, _, rfl⟩
        rcases List.mem_map.mp hd2 with ⟨w2, _, rfl⟩
        exact ⟨rfl, rfl⟩

/-- C1: over every serialized history of scan requests and radio events,
`esp_wifi_scan_start` is invoked only at a step whose scan-in-progress flag
was clear; a scan request arriving while a scan is in flight starts no
hardware scan, produces no delivery, and only prepends its waiter to the
queue; and at a scan-done fan-out the deliveries go exactly to the queued
waiters, every one carrying the identical count and the identical result
list. -/
theorem scan_multiplexer_single_flight (s0 : WifiState)
    (cmds : List Cmd) :
    ∀ p ∈ (run s0 cmds).2,
      (p.2.scanStartCalled = true → p.2.preInFlight = false) ∧
      (∀ w env, p.1 = Cmd.scan w env → p.2.preInFlight = true →
        p.2.scanStartCalled = false ∧ p.2.deliveries = [] ∧
        p.2.postQueue = w :: p.2.preQueue) ∧
      (∀ status aps getOk, p.1 = Cmd.ev (.scanDone status aps getOk) →
        p.2.deliveries.map Delivery.w = p.2.preQueue ∧
        ∀ d1 ∈ p.2.deliveries, ∀ d2 ∈ p.2.deliveries,
          d1.count = d2.count ∧ d1.res = d2.res) := by
  induction cmds generalizing s0 with
  | nil =>
    intro p hp
    simp [run] at hp
  | cons c cs ih =>
    intro p hp
    rcases (by simpa [run] using hp :
        p = (c, (step s0 c).2) ∨ p ∈ (run (step s0 c).1 cs).2) with rfl | hp2
    · exact step_log_spec s0 c
    · exact ih (step s0 c).1 p hp2

/-- Witness for `scan_multiplexer_single_flight`: in the concrete history
"scan by waiter 1; scan by waiter 2; scan done with zero APs", the second
request arrives in-flight, starts no hardware scan, delivers nothing and
only prepends waiter 2. -/
theorem scan_multiplexer_single_flight_witness :
    ((Cmd.scan 2 scanEnvOk, (⟨true, [1], [2, 1], false, []⟩ : StepLog)) ∈
      (run stSta [Cmd.scan 1 scanEnvOk, Cmd.scan 2 scanEnvOk,
        Cmd.ev (.scanDone 0 [] true)]).2) ∧
    (false = false ∧ ([] : List Delivery) = [] ∧ [2, 1] = 2 :: [1]) := by
  have hmem : (Cmd.scan 2 scanEnvOk,
      (⟨true, [1], [2, 1], false, []⟩ : StepLog)) ∈
      (run stSta [Cmd.scan 1 scanEnvOk, Cmd.scan 2 scanEnvOk,
        Cmd.ev (.scanDone 0 [] true)]).2 := by decide
  have h := scan_multiplexer_single_flight stSta
    [Cmd.scan 1 scanEnvOk, Cmd.scan 2 scanEnvOk,
      Cmd.ev (.scanDone 0 [] true)]
    (Cmd.scan 2 scanEnvOk, (⟨true, [1], [2, 1], false, []⟩ : StepLog)) hmem
  exact ⟨hmem, h.2.1 2 scanEnvOk rfl rfl⟩

/-- C2 counterexample: starting from mode NULL (Off), which already
excludes the Station role, removing Station with every radio call
succeeding does not leave the mode unchanged — it sets AP mode. -/
theorem remove_mode_excluded_role_counterexample :
    (mgos_wifi_remove_mode .sta .null envAllOk).2 = .ap ∧
    (mgos_wifi_remove_mode .sta .null envAllOk).2 ≠ .null := by
  decide

/-- C2 (amended): for role Station or AccessPoint, when the underlying
mode-set operation succeeds `mgos_wifi_remove_mode` never leaves APSTA:
from APSTA it yields the other single role, from the role itself it yields
NULL, from the other single role it changes nothing, and from NULL it sets
the other single role (rather than changing nothing); when the underlying
operation fails, the stored mode is unchanged (possibly remaining
APSTA). -/
theorem remove_mode_amended (role cur : WifiMode) (env : SetModeEnv)
    (hrole : role = .sta ∨ role = .ap) :
    ((mgos_wifi_remove_mode role cur env).1 = .ok →
      (mgos_wifi_remove_mode role cur env).2 ≠ .apsta ∧
      (cur = .apsta → (mgos_wifi_remove_mode role cur env).2 =
        (if role = .sta then WifiMode.ap else WifiMode.sta)) ∧
      (cur = role → (mgos_wifi_remove_mode role cur env).2 = .null) ∧
      (cur = (if role = .sta then WifiMode.ap else WifiMode.sta) →
        (mgos_wifi_remove_mode role cur env).2 = cur) ∧
      (cur = .null → (mgos_wifi_remove_mode role cur env).2 =
        (if role = .sta then WifiMode.ap else WifiMode.sta))) ∧
    ((mgos_wifi_remove_mode role cur env).1 ≠ .ok →
      (mgos_wifi_remove_mode role cur env).2 = cur) := by
  rcases hrole with rfl | rfl <;> cases cur
  · have hred : mgos_wifi_remove_mode .sta .null env =
        mgos_wifi_set_mode .ap .null env := rfl
    rw [hred]
    obtain ⟨hok, hfail⟩ := set_mode_spec .ap .null env
    by_cases hr : (mgos_wifi_set_mode .ap .null env).1 = .ok
    · simp [hr, hok hr]
    · simp [hr, hfail hr]
  · have hred : mgos_wifi_remove_mode .sta .sta env =
        mgos_wifi_set_mode .null .sta env := rfl
    rw [hred]
    obtain ⟨hok, hfail⟩ := set_mode_spec .null .sta env
    by_cases hr : (mgos_wifi_set_mode .null .sta env).1 = .ok
    · simp [hr, hok hr]
    · simp [hr, hfail hr]
  · have hred : mgos_wifi_remove_mode .sta .ap env =
        ((.ok, .ap) : EspErr × WifiMode) := rfl
    rw [hred]
    simp
  · have hred : mgos_wifi_remove_mode .sta .apsta env =
        mgos_wifi_set_mode .ap .apsta env := rfl
    rw [hred]
    obtain ⟨hok, hfail⟩ := set_mode_spec .ap .apsta env
    by_cases hr : (mgos_wifi_set_mode .ap .apsta env).1 = .ok
    · simp [hr, hok hr]
    · simp [hr, hfail hr]
  · have hred : mgos_wifi_remove_mode .ap .null env =
        mgos_wifi_set_mode .sta .null env := rfl
    rw [hred]
    obtain ⟨hok, hfail⟩ := set_mode_spec .sta .null env
    by_cases hr : (mgos_wifi_set_mode .sta .null env).1 = .ok
    · simp [hr, hok hr]
    · simp [hr, hfail hr]
  · have hred : mgos_wifi_remove_mode .ap .sta env =
        ((.ok, .sta) : EspErr × WifiMode) := rfl
    rw [hred]
    simp
  · have hred : mgos_wifi_remove_mode .ap .ap env =
        mgos_wifi_set_mode .null .ap env := rfl
    rw [hred]
    obtain ⟨hok, hfail⟩ := set_mode_spec .null .ap env
    by_cases hr : (mgos_wifi_set_mode .null .ap env).1 = .ok
    · simp [hr, hok hr]
    · simp [hr, hfail hr]
  · have hred : mgos_wifi_remove_mode .ap .apsta env =
        mgos_wifi_set_mode .sta .apsta env := rfl
    rw [hred]
    obtain ⟨hok, hfail⟩ := set_mode_spec .sta .apsta env
    by_cases hr : (mgos_wifi_set_mode .sta .apsta env).1 = .ok
    · simp [hr, hok hr]
    · simp [hr, hfail hr]

/-- Witness for `remove_mode_amended`: removing STA from APSTA in an
all-success environment yields AP, and removing AP while in AP mode yields
NULL. -/
theorem remove_mode_amended_witness :
    (mgos_wifi_remove_mode .sta .apsta envAllOk).2 = .ap ∧
    (mgos_wifi_remove_mode .ap .ap envAllOk).2 = .null := by
  have h1 := remove_mode_amended .sta .apsta envAllOk (Or.inl rfl)
  have h2 := remove_mode_amended .ap .ap envAllOk (Or.inr rfl)
  exact ⟨(h1.1 (by decide)).2.1 rfl, (h2.1 (by decide)).2.2.1 rfl⟩

/-- C3 counterexample: with both configs enabled and `keep_enabled` clear,
`mgos_wifi_set_config` does not set the mode to Off — it runs the station
setup, and (in an all-success environment, from mode NULL) leaves the mode
STA. -/
theorem set_config_both_no_keep_counterexample :
    (mgos_wifi_set_config cfgBothNoKeep cfgEnvOk st0).2.2 =
      [CfgAction.setupSta] ∧
    (mgos_wifi_set_config cfgBothNoKeep cfgEnvOk st0).2.2 ≠
      [CfgAction.setMode .null] ∧
    (mgos_wifi_set_config cfgBothNoKeep cfgEnvOk st0).2.1.cur_mode =
      .sta := by
  decide

/-- C3 (amended): `mgos_wifi_set_config` dispatches as follows: AP-only
setup when only the AP config is enabled; when both are enabled with
`keep_enabled` set, APSTA mode is set, then AP setup, then station setup,
each later step running only if the earlier ones succeeded (and all three
run whenever the call returns true); station-only setup when the station
config is enabled and it is not the case that both are enabled with
`keep_enabled` (in particular when both are enabled without
`keep_enabled`); and the mode is set to Off exactly when neither config is
enabled. -/
theorem set_config_dispatch (cfg : WifiCfg) (env : SetCfgEnv)
    (st : WifiState) :
    (cfg.ap.enable = true → cfg.sta.enable = false →
      (mgos_wifi_set_config cfg env st).2.2 = [CfgAction.setupAp]) ∧
    (cfg.ap.enable = true → cfg.sta.enable = true →
      cfg.ap.keep_enabled = true →
      ((mgos_wifi_set_config cfg env st).2.2 =
          [CfgAction.setMode .apsta] ∨
        (mgos_wifi_set_config cfg env st).2.2 =
          [CfgAction.setMode .apsta, CfgAction.setupAp] ∨
        (mgos_wifi_set_config cfg env st).2.2 =
          [CfgAction.setMode .apsta, CfgAction.setupAp,
            CfgAction.setupSta]) ∧
      ((mgos_wifi_set_config cfg env st).1 = true →
        (mgos_wifi_set_config cfg env st).2.2 =
          [CfgAction.setMode .apsta, CfgAction.setupAp,
            CfgAction.setupSta])) ∧
    (cfg.sta.enable = true →
      ¬(cfg.ap.enable = true ∧ cfg.ap.keep_enabled = true) →
      (mgos_wifi_set_config cfg env st).2.2 = [CfgAction.setupSta]) ∧
    ((mgos_wifi_set_config cfg env st).2.2 = [CfgAction.setMode .null] ↔
      cfg.ap.enable = false ∧ cfg.sta.enable = false) := by
  refine ⟨?_, ?_, ?_, ?_⟩
  · intro hap hsta
    simp [mgos_wifi_set_config, hap, hsta]
  · intro hap hsta hkeep
    by_cases hq : (mgos_wifi_set_mode .apsta st.cur_mode env.modeEnv).1 = .ok
    · by_cases ha : (mgos_wifi_setup_ap cfg.ap env.apEnv
          { st with cur_mode :=
            (mgos_wifi_set_mode .apsta st.cur_mode env.modeEnv).2 }).1 = true
      · constructor
        · right; right
          simp [mgos_wifi_set_config, hap, hsta, hkeep, hq, ha]
        · intro _
          simp [mgos_wifi_set_config, hap, hsta, hkeep, hq, ha]
      · constructor
        · right; left
          simp [mgos_wifi_set_config, hap, hsta, hkeep, hq, ha]
        · intro hres
          exfalso
          simp [mgos_wifi_set_config, hap, hsta, hkeep, hq, ha] at hres
    · constructor
      · left
        simp [mgos_wifi_set_config, hap, hsta, hkeep, hq]
      · intro hres
        exfalso
        simp [mgos_wifi_set_config, hap, hsta, hkeep, hq] at hres
  · intro hsta hnk
    by_cases hap : cfg.ap.enable = true
    · have hkeep : cfg.ap.keep_enabled = false := by
        cases hk : cfg.ap.keep_enabled
        · rfl
        · exact absurd ⟨hap, hk⟩ hnk
      simp [mgos_wifi_set_config, hap, hsta, hkeep]
    · simp [mgos_wifi_set_config, hap, hsta]
  · by_cases hap : cfg.ap.enable = true
    · by_cases hsta : cfg.sta.enable = true
      · by_cases hkeep : cfg.ap.keep_enabled = true
        · by_cases hq :
              (mgos_wifi_set_mode .apsta st.cur_mode env.modeEnv).1 = .ok
          · by_cases ha : (mgos_wifi_setup_ap cfg.ap env.apEnv
                { st with cur_mode :=
                  (mgos_wifi_set_mode .apsta st.cur_mode
                    env.modeEnv).2 }).1 = true
            · simp [mgos_wifi_set_config, hap, hsta, hkeep, hq, ha]
            · simp [mgos_wifi_set_config, hap, hsta, hkeep, hq, ha]
          · simp [mgos_wifi_set_config, hap, hsta, hkeep, hq]
        · simp [mgos_wifi_set_config, hap, hsta, hkeep]
      · simp [mgos_wifi_set_config, hap, hsta]
    · by_cases hsta : cfg.sta.enable = true
      · simp [mgos_wifi_set_config, hap, hsta]
      · simp [mgos_wifi_set_config, hap, hsta]

/-- Witness for `set_config_dispatch`: with both configs enabled and
`keep_enabled` clear, the dispatch runs the station setup. -/
theorem set_config_dispatch_witness :
    (mgos_wifi_set_config cfgBothNoKeep cfgEnvOk st0).2.2 =
      [CfgAction.setupSta] :=
  (set_config_dispatch cfgBothNoKeep cfgEnvOk st0).2.2.1 (by decide)
    (by decide)

end Esp32Wifi
